import Mathlib

/-!
Shallow embedding of the HTTP volume server of baggageclaim
(`src/api/volume_server.go`) and the pieces of its collaborators that the
handlers observe.  Handlers are modelled as pure functions from their
inputs (decoded request body, random bytes for handle generation, the
strategy resolver's answer, the repository's answer) to the sequence of
actions they perform on the `http.ResponseWriter`.
-/

namespace BaggageClaim

/-- Errors the `volume.Repository` collaborator can return.  The handler
code compares an error against the sentinel errors
`volume.ErrVolumeDoesNotExist`, `volume.ErrParentVolumeNotFound` and
`volume.ErrNoParentVolumeProvided`; every other error value (including a
duplicate-handle or a has-children failure) is a distinct error that falls
through to the default branch. -/
inductive RepoError where
  | volumeDoesNotExist
  | parentVolumeNotFound
  | noParentVolumeProvided
  | handleAlreadyExists
  | hasChildren
  | other (msg : String)
  deriving DecidableEq, Repr

/-- A creation plan, as produced by the strategy resolver (spec section 4.4:
empty, copy-on-write child, or import of a host path). -/
inductive Strategy where
  | empty
  | cowFrom (parentHandle : String)
  | importPath (hostPath : String)
  deriving DecidableEq, Repr

/-- The volume value returned by `Repository.CreateVolume` and encoded into
the 201 response body (`volume.Volume`). -/
structure Volume where
  handle : String
  path : String
  deriving DecidableEq, Repr

/-- The decoded JSON body of a POST /volumes request
(`baggageclaim.VolumeRequest`). -/
structure VolumeRequest where
  handle : String
  strategyJson : String
  properties : List (String × String)
  ttlInSeconds : Nat
  privileged : Bool
  deriving DecidableEq, Repr

/-- Response bodies written by the handlers: either the JSON error object
`\x7b"error": "<message>"\x7d` or the JSON encoding of a volume. -/
inductive HttpBody where
  | errorJson (msg : String)
  | volumeJson (v : Volume)
  deriving DecidableEq, Repr

/-- One observable action of a handler on the `http.ResponseWriter` (or the
logger, for failures that are only logged). -/
inductive HttpEvent where
  | setHeader (name value : String)
  | writeHeader (status : Nat)
  | writeBody (body : HttpBody)
  | logError (msg : String)
  deriving DecidableEq, Repr

/-- The status code the client observes, following `net/http` semantics:
the first explicit `WriteHeader` wins; a body write before any
`WriteHeader` implicitly sends 200; header sets and log lines do not
commit a status. -/
def clientStatus : List HttpEvent → Option Nat
  | [] => none
  | HttpEvent.setHeader _ _ :: rest => clientStatus rest
  | HttpEvent.writeHeader s :: _ => some s
  | HttpEvent.writeBody _ :: _ => some 200
  | HttpEvent.logError _ :: rest => clientStatus rest

/-- Error messages declared at the top of `volume_server.go`. -/
def errCreateVolumeFailed : String := "failed to create volume"

def errDestroyVolumeFailed : String := "failed to destroy volume"

def errStreamInFailed : String := "failed to stream in to volume"

def errStreamOutFailed : String := "failed to stream out from volume"

def errStreamOutNotFound : String := "no such file or directory"

/-- Modelled from the spec: `RespondWithError` (in the api package but not
under src/) writes the status code and the JSON error body
`\x7b"error": "<message>"\x7d` (spec section 6: errors produce that object). -/
def respondWithError (msg : String) (code : Nat) : List HttpEvent :=
  [HttpEvent.writeHeader code, HttpEvent.writeBody (HttpBody.errorJson msg)]

/-! ### UUIDv4 handle generation

`VolumeServer.generateHandle` calls `uuid.NewV4()` from the
nu7hatch/gouuid dependency and returns `handle.String()`.  `NewV4` fills
16 bytes from the random source, then sets the variant
(`u[8] = (u[8] | 0x80) & 0xBF`) and the version (`u[6] = (u[6] & 0xF) | 0x40`);
`String` renders `%x-%x-%x-%x-%x` over the byte groups 0:4, 4:6, 6:8,
8:10, 10:16, i.e. two lowercase hex digits per byte with dashes between
the groups. -/

/-- Lowercase hexadecimal digit for a nibble, as Go's `%x` renders it. -/
def hexDigit (n : Nat) : Char :=
  if n < 10 then Char.ofNat (48 + n) else Char.ofNat (87 + n)

/-- The two lowercase hex digits Go's `%x` prints for one byte. -/
def hexByte (b : Nat) : List Char :=
  [hexDigit (b / 16 % 16), hexDigit (b % 16)]

/-- The bit surgery of NewV4 on the 16 random bytes: byte 6 keeps its low
nibble and gets high nibble 4 (the version), byte 8 keeps its low 6 bits
and gets top bits 10 (the RFC 4122 variant). -/
def uuidBytes (r : Fin 16 → Fin 256) : Fin 16 → Fin 256 := fun i =>
  if i.val = 6 then ⟨64 + (r i).val % 16, by omega⟩
  else if i.val = 8 then ⟨128 + (r i).val % 64, by omega⟩
  else r i

/-- The character list of `UUID.String()`: hex bytes in groups of
4, 2, 2, 2 and 6 bytes, separated by dashes. -/
def uuidChars (u : Fin 16 → Fin 256) : List Char :=
  hexByte (u 0).val ++ hexByte (u 1).val ++ hexByte (u 2).val ++ hexByte (u 3).val ++
  ['-'] ++ hexByte (u 4).val ++ hexByte (u 5).val ++
  ['-'] ++ hexByte (u 6).val ++ hexByte (u 7).val ++
  ['-'] ++ hexByte (u 8).val ++ hexByte (u 9).val ++
  ['-'] ++ hexByte (u 10).val ++ hexByte (u 11).val ++ hexByte (u 12).val ++
  hexByte (u 13).val ++ hexByte (u 14).val ++ hexByte (u 15).val

/-- The successful result of `generateHandle` for random bytes `r`:
`uuid.NewV4().String()`. -/
def uuidV4String (r : Fin 16 → Fin 256) : String :=
  String.mk (uuidChars (uuidBytes r))

/-- Syntactic UUIDv4 shape: 36 characters, dashes at positions 8, 13, 18
and 23, lowercase hex digits everywhere else, and the version digit `4`
at position 14. -/
def isHexChar (c : Char) : Bool :=
  (48 ≤ c.toNat && c.toNat ≤ 57) || (97 ≤ c.toNat && c.toNat ≤ 102)

def isUUIDv4Format (s : String) : Bool :=
  s.data.length = 36 &&
  (List.range 36).all (fun i =>
    if i = 8 ∨ i = 13 ∨ i = 18 ∨ i = 23 then s.data.getD i ' ' = '-'
    else isHexChar (s.data.getD i ' ')) &&
  s.data.getD 14 ' ' = '4'

/-! ### The CreateVolume handler -/

/-- Lines 63-71: use the handle from the request body, or generate one
when it is empty; `randBytes` is the random source read by
`uuid.NewV4` inside `generateHandle` (`none` = read error). -/
def resolveHandle (requestHandle : String)
    (randBytes : Option (Fin 16 → Fin 256)) : Except Unit String :=
  if requestHandle = "" then
    match randBytes with
    | none => Except.error ()
    | some r => Except.ok (uuidV4String r)
  else Except.ok requestHandle

/-- What `VolumeServer.CreateVolume` (lines 49-127) does, together with
the handle it passed to `Repository.CreateVolume` (recorded at the
single call site; `none` when the handler returned before reaching that
call).

Inputs stand for the collaborators of the handler: `body` is the result
of decoding the request body (`none` = decode error), `randBytes` is the
random source read by `generateHandle` (`none` = read error),
`strategyFor` is the strategerizer, `repoCreate` the CreateVolume of the
repository (taking handle, strategy, properties, ttl, privileged), and
`encodeOk` tells whether encoding the response body onto the wire
succeeds. -/
def createVolume
    (body : Option VolumeRequest)
    (randBytes : Option (Fin 16 → Fin 256))
    (strategyFor : VolumeRequest → Except Unit Strategy)
    (repoCreate : String → Strategy → List (String × String) → Nat → Bool →
      Except RepoError Volume)
    (encodeOk : Bool) : List HttpEvent × Option String :=
  match body with
  | none => (respondWithError errCreateVolumeFailed 400, none)
  | some request =>
    match resolveHandle request.handle randBytes with
    | Except.error _ => (respondWithError errCreateVolumeFailed 400, none)
    | Except.ok handle =>
      match strategyFor request with
      | Except.error _ => (respondWithError errCreateVolumeFailed 422, none)
      | Except.ok strategy =>
        match repoCreate handle strategy request.properties
            request.ttlInSeconds request.privileged with
        | Except.error e =>
          let code : Nat :=
            match e with
            | RepoError.parentVolumeNotFound => 422
            | RepoError.noParentVolumeProvided => 422
            | _ => 500
          (respondWithError errCreateVolumeFailed code, some handle)
        | Except.ok createdVolume =>
          ([HttpEvent.setHeader "Content-Type" "application/json",
            HttpEvent.writeHeader 201] ++
            (if encodeOk then [HttpEvent.writeBody (HttpBody.volumeJson createdVolume)]
             else [HttpEvent.logError "failed-to-encode"]),
           some handle)

/-! ### The DestroyVolume handler -/

/-- What `VolumeServer.DestroyVolume` does, given the repository's answer
(`none` = success). -/
def destroyVolume (repoResult : Option RepoError) : List HttpEvent :=
  match repoResult with
  | some RepoError.volumeDoesNotExist => respondWithError errDestroyVolumeFailed 404
  | some _ => respondWithError errDestroyVolumeFailed 500
  | none => [HttpEvent.writeHeader 204]

/-- Modelled from the spec: `Repository.DestroyVolume` (the repository is
not under src/) fails with `NotFound` (`ErrVolumeDoesNotExist`) if the
handle is not known; on a known handle it may succeed or fail otherwise.
Here the repository state is the set of known handles and destruction of
a known handle succeeds. -/
def repoDestroy (known : List String) (handle : String) : Option RepoError :=
  if handle ∈ known then none else some RepoError.volumeDoesNotExist

/-! ### Query-string handling shared by the streaming handlers -/

/-- A parsed URL query, as the ordered key-value pairs of the query
string; `req.URL.Query()[k]` is the list of values for `k` in order. -/
def queryValues (query : List (String × String)) (key : String) : List String :=
  (query.filter (fun p => p.1 = key)).map (fun p => p.2)

/-- Lines 365-368 / 402-405: `subPath` is the first `"path"` value when
the parameter is present, the empty string otherwise. -/
def subPathOf (query : List (String × String)) : String :=
  match queryValues query "path" with
  | [] => ""
  | v :: _ => v

/-! ### The StreamIn and StreamOut handlers -/

/-- What `VolumeServer.StreamIn` does, given the parsed query and the
repository's `StreamIn` (a function of the sub path, returning the
`badStream` flag and an optional error); the second component records the
sub path passed to the repository. -/
def streamIn
    (query : List (String × String))
    (repoStreamIn : String → Bool × Option RepoError) :
    List HttpEvent × String :=
  let subPath := subPathOf query
  let result := repoStreamIn subPath
  let events :=
    match result.2 with
    | some RepoError.volumeDoesNotExist =>
      respondWithError errStreamInFailed 404
    | some _ =>
      if result.1 then respondWithError errStreamInFailed 400
      else respondWithError errStreamInFailed 500
    | none => [HttpEvent.writeHeader 204]
  (events, subPath)

/-- Errors `Repository.StreamOut` can return, as the handler classifies
them: the sentinel `ErrVolumeDoesNotExist`, an error satisfying
`os.IsNotExist` (the source path is absent), or anything else. -/
inductive StreamOutError where
  | volumeDoesNotExist
  | sourcePathNotFound
  | other (msg : String)
  deriving DecidableEq, Repr

/-- What `VolumeServer.StreamOut` does, given the parsed query and the
repository's `StreamOut` as a function of the sub path (`none` =
success, in which case the repository already wrote the archive to the
response); the second component records the sub path passed to the
repository. -/
def streamOut
    (query : List (String × String))
    (repoStreamOut : String → Option StreamOutError) :
    List HttpEvent × String :=
  let subPath := subPathOf query
  let events :=
    match repoStreamOut subPath with
    | some StreamOutError.volumeDoesNotExist =>
      respondWithError errStreamOutFailed 404
    | some StreamOutError.sourcePathNotFound =>
      respondWithError errStreamOutNotFound 404
    | some (StreamOutError.other _) =>
      respondWithError errStreamOutFailed 500
    | none => []
  (events, subPath)

/-! ## Theorems for the claims -/

/-- C2: for every PUT /volumes/:handle/stream-in request, the handler
responds 404 when the repository reports the volume does not exist
(taking precedence over any bad-stream indication), 400 exactly when the
repository returns `badStream = true` together with some other error,
500 on any other repository error, and 204 on success. -/
theorem streamIn_status (query : List (String × String))
    (repoStreamIn : String → Bool × Option RepoError) :
    clientStatus (streamIn query repoStreamIn).1 =
      some (match (repoStreamIn (subPathOf query)).2 with
        | some RepoError.volumeDoesNotExist => 404
        | some _ => if (repoStreamIn (subPathOf query)).1 then 400 else 500
        | none => 204) := by
  rcases h : repoStreamIn (subPathOf query) with ⟨bad, err⟩
  rcases err with _ | e
  · simp [streamIn, h, clientStatus]
  · cases e <;> cases bad <;>
      simp [streamIn, h, clientStatus, respondWithError]

/-- C4 counterexample: when the repository fails with `HasChildren`, the
DestroyVolume handler does not respond 409. -/
theorem destroyVolume_hasChildren_not_409 :
    clientStatus (destroyVolume (some RepoError.hasChildren)) ≠ some 409 := by
  decide

/-- C4 amended: when the repository fails with `HasChildren`, the
DestroyVolume handler responds 500 (the handler maps every repository
error other than `ErrVolumeDoesNotExist` to an internal error). -/
theorem destroyVolume_hasChildren_500 :
    clientStatus (destroyVolume (some RepoError.hasChildren)) = some 500 := by
  decide

/-- C5: destroying an unknown handle makes the repository fail with
`NotFound` and the handler respond 404 (never 500); destroying a known
handle succeeds with a bare 204 and no body. -/
theorem destroyVolume_notFound_or_204 (known : List String) (handle : String) :
    (handle ∉ known →
      destroyVolume (repoDestroy known handle) =
        respondWithError errDestroyVolumeFailed 404 ∧
      clientStatus (destroyVolume (repoDestroy known handle)) = some 404 ∧
      clientStatus (destroyVolume (repoDestroy known handle)) ≠ some 500) ∧
    (handle ∈ known →
      destroyVolume (repoDestroy known handle) = [HttpEvent.writeHeader 204]) := by
  constructor
  · intro h
    refine ⟨?_, ?_, ?_⟩ <;>
      simp [repoDestroy, h, destroyVolume, respondWithError, clientStatus]
  · intro h
    simp [repoDestroy, h, destroyVolume]

/-- Witness for C5 at concrete inputs: handle "gone" is unknown to a
repository knowing only "abc"; handle "abc" is known. -/
theorem destroyVolume_notFound_or_204_witness :
    destroyVolume (repoDestroy ["abc"] "gone") =
      respondWithError errDestroyVolumeFailed 404 ∧
    destroyVolume (repoDestroy ["abc"] "abc") = [HttpEvent.writeHeader 204] :=
  ⟨((destroyVolume_notFound_or_204 ["abc"] "gone").1 (by decide)).1,
   (destroyVolume_notFound_or_204 ["abc"] "abc").2 (by decide)⟩

/-- C6: on a GET /volumes/:handle/stream-out request, a missing sub path
(an `os.IsNotExist` error) yields 404 with the message of
`ErrStreamOutNotFound`, while an unknown volume yields 404 with the
distinct message of `ErrStreamOutFailed`. -/
theorem streamOut_404_messages (query : List (String × String))
    (repoStreamOut : String → Option StreamOutError) :
    (repoStreamOut (subPathOf query) = some StreamOutError.sourcePathNotFound →
      (streamOut query repoStreamOut).1 =
        respondWithError errStreamOutNotFound 404) ∧
    (repoStreamOut (subPathOf query) = some StreamOutError.volumeDoesNotExist →
      (streamOut query repoStreamOut).1 =
        respondWithError errStreamOutFailed 404) ∧
    errStreamOutNotFound ≠ errStreamOutFailed := by
  refine ⟨fun h => ?_, fun h => ?_, by decide⟩ <;> simp [streamOut, h]

/-- Witness for C6 at concrete inputs: a repository that reports a
missing sub path, and one that reports an unknown volume. -/
theorem streamOut_404_messages_witness :
    (streamOut [] (fun _ => some StreamOutError.sourcePathNotFound)).1 =
      respondWithError errStreamOutNotFound 404 ∧
    (streamOut [] (fun _ => some StreamOutError.volumeDoesNotExist)).1 =
      respondWithError errStreamOutFailed 404 :=
  ⟨(streamOut_404_messages [] (fun _ => some StreamOutError.sourcePathNotFound)).1 rfl,
   (streamOut_404_messages [] (fun _ => some StreamOutError.volumeDoesNotExist)).2.1 rfl⟩

/-- C9: both streaming handlers pass the empty string to the repository
when the "path" query parameter is absent, and the first value when the
parameter is given (possibly multiple times). -/
theorem streaming_subPath (query : List (String × String))
    (repoStreamIn : String → Bool × Option RepoError)
    (repoStreamOut : String → Option StreamOutError) :
    (queryValues query "path" = [] →
      (streamIn query repoStreamIn).2 = "" ∧
      (streamOut query repoStreamOut).2 = "") ∧
    (∀ v vs, queryValues query "path" = v :: vs →
      (streamIn query repoStreamIn).2 = v ∧
      (streamOut query repoStreamOut).2 = v) := by
  constructor
  · intro h
    constructor <;> simp [streamIn, streamOut, subPathOf, h]
  · intro v vs h
    constructor <;> simp [streamIn, streamOut, subPathOf, h]

/-- Witness for C9 at concrete inputs: a query without "path", and one
with two "path" values whose first is "a". -/
theorem streaming_subPath_witness :
    (streamIn [("other", "x")] (fun _ => (false, none))).2 = "" ∧
    (streamOut [("path", "a"), ("path", "b")] (fun _ => none)).2 = "a" :=
  ⟨((streaming_subPath [("other", "x")] (fun _ => (false, none))
      (fun _ => none)).1 (by decide)).1,
   ((streaming_subPath [("path", "a"), ("path", "b")] (fun _ => (false, none))
      (fun _ => none)).2 "a" ["b"] (by decide)).2⟩

/-- C1 counterexample: a POST /volumes request with caller-supplied
handle "h" whose repository creation fails with `HandleAlreadyExists`
receives status 500, not 409. -/
theorem createVolume_duplicate_not_409 :
    clientStatus (createVolume
      (some ⟨"h", "", [], 0, false⟩) none
      (fun _ => Except.ok Strategy.empty)
      (fun _ _ _ _ _ => Except.error RepoError.handleAlreadyExists)
      true).1 = some 500 ∧ (some 500 : Option Nat) ≠ some 409 := by
  constructor
  · rfl
  · decide

/-- C1 amended: when the repository rejects a duplicate handle with
`HandleAlreadyExists`, the handler responds 500 (the switch on the
creation error maps only `ErrParentVolumeNotFound` and
`ErrNoParentVolumeProvided` specially; everything else gets
`StatusInternalServerError`). -/
theorem createVolume_duplicate_500
    (req : VolumeRequest) (randBytes : Option (Fin 16 → Fin 256))
    (strategyFor : VolumeRequest → Except Unit Strategy)
    (repoCreate : String → Strategy → List (String × String) → Nat → Bool →
      Except RepoError Volume)
    (encodeOk : Bool) (handle : String) (strategy : Strategy)
    (hh : resolveHandle req.handle randBytes = Except.ok handle)
    (hs : strategyFor req = Except.ok strategy)
    (hr : repoCreate handle strategy req.properties req.ttlInSeconds
      req.privileged = Except.error RepoError.handleAlreadyExists) :
    clientStatus
      (createVolume (some req) randBytes strategyFor repoCreate encodeOk).1 =
      some 500 := by
  simp [createVolume, hh, hs, hr, respondWithError, clientStatus]

/-- Witness for C1 amended at concrete inputs. -/
theorem createVolume_duplicate_500_witness :
    clientStatus (createVolume
      (some ⟨"dup", "", [], 0, false⟩) none
      (fun _ => Except.ok Strategy.empty)
      (fun _ _ _ _ _ => Except.error RepoError.handleAlreadyExists)
      false).1 = some 500 :=
  createVolume_duplicate_500 ⟨"dup", "", [], 0, false⟩ none
    (fun _ => Except.ok Strategy.empty)
    (fun _ _ _ _ _ => Except.error RepoError.handleAlreadyExists)
    false "dup" Strategy.empty rfl rfl rfl

/-- C3: for a POST /volumes request that decodes and resolves its handle,
the response status is 422 exactly when the strategy resolver rejects the
request or the repository fails with `ErrParentVolumeNotFound` or
`ErrNoParentVolumeProvided`; any other repository creation failure
yields 500. -/
theorem createVolume_422_characterization
    (req : VolumeRequest) (randBytes : Option (Fin 16 → Fin 256))
    (strategyFor : VolumeRequest → Except Unit Strategy)
    (repoCreate : String → Strategy → List (String × String) → Nat → Bool →
      Except RepoError Volume)
    (encodeOk : Bool) (handle : String)
    (hh : resolveHandle req.handle randBytes = Except.ok handle) :
    (clientStatus
        (createVolume (some req) randBytes strategyFor repoCreate encodeOk).1 =
        some 422 ↔
      strategyFor req = Except.error () ∨
      ∃ s, strategyFor req = Except.ok s ∧
        (repoCreate handle s req.properties req.ttlInSeconds req.privileged =
            Except.error RepoError.parentVolumeNotFound ∨
         repoCreate handle s req.properties req.ttlInSeconds req.privileged =
            Except.error RepoError.noParentVolumeProvided)) ∧
    (∀ s e, strategyFor req = Except.ok s →
      repoCreate handle s req.properties req.ttlInSeconds req.privileged =
        Except.error e →
      e ≠ RepoError.parentVolumeNotFound →
      e ≠ RepoError.noParentVolumeProvided →
      clientStatus
        (createVolume (some req) randBytes strategyFor repoCreate encodeOk).1 =
        some 500) := by
  constructor
  · cases hs : strategyFor req with
    | error u =>
      cases u
      simp [createVolume, hh, hs, respondWithError, clientStatus]
    | ok s =>
      cases hr : repoCreate handle s req.properties req.ttlInSeconds
          req.privileged with
      | error e =>
        cases e <;>
          simp [createVolume, hh, hs, hr, respondWithError, clientStatus]
      | ok v =>
        cases encodeOk <;>
          simp [createVolume, hh, hs, hr, respondWithError, clientStatus]
  · intro s e hs hr hne1 hne2
    cases e <;>
      simp_all [createVolume, hh, hs, hr, respondWithError, clientStatus]

/-- Witness for C3 at concrete inputs: a rejected strategy yields 422,
and a repository failure other than the two parent errors yields 500. -/
theorem createVolume_422_characterization_witness :
    clientStatus (createVolume
      (some ⟨"h1", "", [], 0, false⟩) none
      (fun _ => Except.error ())
      (fun _ _ _ _ _ => Except.ok ⟨"h1", "/live/h1"⟩)
      true).1 = some 422 ∧
    clientStatus (createVolume
      (some ⟨"h1", "", [], 0, false⟩) none
      (fun _ => Except.ok Strategy.empty)
      (fun _ _ _ _ _ => Except.error (RepoError.other "disk full"))
      true).1 = some 500 :=
  ⟨((createVolume_422_characterization ⟨"h1", "", [], 0, false⟩ none
      (fun _ => Except.error ())
      (fun _ _ _ _ _ => Except.ok ⟨"h1", "/live/h1"⟩)
      true "h1" rfl).1).mpr (Or.inl rfl),
   (createVolume_422_characterization ⟨"h1", "", [], 0, false⟩ none
      (fun _ => Except.ok Strategy.empty)
      (fun _ _ _ _ _ => Except.error (RepoError.other "disk full"))
      true "h1" rfl).2 Strategy.empty (RepoError.other "disk full")
      rfl rfl (by decide) (by decide)⟩

/-- C8: a POST /volumes request with an empty handle whose server-side
handle generation fails is answered with 400 Bad Request, not 500. -/
theorem createVolume_generateHandle_failure_400
    (req : VolumeRequest)
    (strategyFor : VolumeRequest → Except Unit Strategy)
    (repoCreate : String → Strategy → List (String × String) → Nat → Bool →
      Except RepoError Volume)
    (encodeOk : Bool)
    (hreq : req.handle = "") :
    (createVolume (some req) none strategyFor repoCreate encodeOk).1 =
      respondWithError errCreateVolumeFailed 400 ∧
    clientStatus
      (createVolume (some req) none strategyFor repoCreate encodeOk).1 =
      some 400 ∧
    clientStatus
      (createVolume (some req) none strategyFor repoCreate encodeOk).1 ≠
      some 500 := by
  refine ⟨?_, ?_, ?_⟩ <;>
    simp [createVolume, resolveHandle, hreq, respondWithError, clientStatus]

/-- Witness for C8 at concrete inputs: empty handle, failing random
source. -/
theorem createVolume_generateHandle_failure_400_witness :
    (createVolume (some ⟨"", "", [], 0, false⟩) none
      (fun _ => Except.ok Strategy.empty)
      (fun _ _ _ _ _ => Except.ok ⟨"x", "/live/x"⟩)
      true).1 = respondWithError errCreateVolumeFailed 400 :=
  (createVolume_generateHandle_failure_400 ⟨"", "", [], 0, false⟩
    (fun _ => Except.ok Strategy.empty)
    (fun _ _ _ _ _ => Except.ok ⟨"x", "/live/x"⟩)
    true rfl).1

/-- C10: on a successful creation the handler sets the Content-Type
header and writes status 201 before attempting to encode the body; a
failing encode is only logged, so the client observes 201 either way. -/
theorem createVolume_success_201_before_encode
    (req : VolumeRequest) (randBytes : Option (Fin 16 → Fin 256))
    (strategyFor : VolumeRequest → Except Unit Strategy)
    (repoCreate : String → Strategy → List (String × String) → Nat → Bool →
      Except RepoError Volume)
    (encodeOk : Bool) (handle : String) (strategy : Strategy) (v : Volume)
    (hh : resolveHandle req.handle randBytes = Except.ok handle)
    (hs : strategyFor req = Except.ok strategy)
    (hr : repoCreate handle strategy req.properties req.ttlInSeconds
      req.privileged = Except.ok v) :
    (createVolume (some req) randBytes strategyFor repoCreate encodeOk).1 =
      [HttpEvent.setHeader "Content-Type" "application/json",
       HttpEvent.writeHeader 201] ++
      (if encodeOk then [HttpEvent.writeBody (HttpBody.volumeJson v)]
       else [HttpEvent.logError "failed-to-encode"]) ∧
    clientStatus
      (createVolume (some req) randBytes strategyFor repoCreate encodeOk).1 =
      some 201 := by
  constructor
  · simp [createVolume, hh, hs, hr]
  · cases encodeOk <;> simp [createVolume, hh, hs, hr, clientStatus]

/-- Witness for C10 at concrete inputs, with a failing encode: the
client still observes 201. -/
theorem createVolume_success_201_before_encode_witness :
    clientStatus (createVolume
      (some ⟨"h2", "", [], 0, false⟩) none
      (fun _ => Except.ok Strategy.empty)
      (fun _ _ _ _ _ => Except.ok ⟨"h2", "/live/h2"⟩)
      false).1 = some 201 :=
  (createVolume_success_201_before_encode ⟨"h2", "", [], 0, false⟩ none
    (fun _ => Except.ok Strategy.empty)
    (fun _ _ _ _ _ => Except.ok ⟨"h2", "/live/h2"⟩)
    false "h2" Strategy.empty ⟨"h2", "/live/h2"⟩ rfl rfl rfl).2

/-! ### Helper lemmas for the UUIDv4 shape -/

lemma string_mk_data (l : List Char) : (String.mk l).data = l := rfl

lemma isHexChar_hexDigit_fin : ∀ m : Fin 16, isHexChar (hexDigit m.val) = true := by
  decide

lemma isHexChar_hexDigit_mod (n : Nat) : isHexChar (hexDigit (n % 16)) = true :=
  isHexChar_hexDigit_fin ⟨n % 16, Nat.mod_lt _ (by norm_num)⟩

lemma uuidChars_eq (u : Fin 16 → Fin 256) :
    uuidChars u =
      [hexDigit ((u 0).val / 16 % 16), hexDigit ((u 0).val % 16),
       hexDigit ((u 1).val / 16 % 16), hexDigit ((u 1).val % 16),
       hexDigit ((u 2).val / 16 % 16), hexDigit ((u 2).val % 16),
       hexDigit ((u 3).val / 16 % 16), hexDigit ((u 3).val % 16), '-',
       hexDigit ((u 4).val / 16 % 16), hexDigit ((u 4).val % 16),
       hexDigit ((u 5).val / 16 % 16), hexDigit ((u 5).val % 16), '-',
       hexDigit ((u 6).val / 16 % 16), hexDigit ((u 6).val % 16),
       hexDigit ((u 7).val / 16 % 16), hexDigit ((u 7).val % 16), '-',
       hexDigit ((u 8).val / 16 % 16), hexDigit ((u 8).val % 16),
       hexDigit ((u 9).val / 16 % 16), hexDigit ((u 9).val % 16), '-',
       hexDigit ((u 10).val / 16 % 16), hexDigit ((u 10).val % 16),
       hexDigit ((u 11).val / 16 % 16), hexDigit ((u 11).val % 16),
       hexDigit ((u 12).val / 16 % 16), hexDigit ((u 12).val % 16),
       hexDigit ((u 13).val / 16 % 16), hexDigit ((u 13).val % 16),
       hexDigit ((u 14).val / 16 % 16), hexDigit ((u 14).val % 16),
       hexDigit ((u 15).val / 16 % 16), hexDigit ((u 15).val % 16)] := by
  simp only [uuidChars, hexByte, List.cons_append, List.nil_append]

lemma isUUIDv4Format_of (u : Fin 16 → Fin 256)
    (h6 : (u 6).val / 16 % 16 = 4) :
    isUUIDv4Format (String.mk (uuidChars u)) = true := by
  simp only [isUUIDv4Format, string_mk_data, uuidChars_eq]
  rw [Bool.and_eq_true, Bool.and_eq_true]
  refine ⟨⟨rfl, ?_⟩, ?_⟩
  · simp [List.range_succ, isHexChar_hexDigit_mod]
  · simp [h6, hexDigit]

/-- The version nibble of the generated UUID is always 4. -/
lemma uuidBytes_six (r : Fin 16 → Fin 256) :
    (uuidBytes r 6).val = 64 + (r 6).val % 16 := rfl

lemma isUUIDv4Format_uuidV4String (r : Fin 16 → Fin 256) :
    isUUIDv4Format (uuidV4String r) = true := by
  apply isUUIDv4Format_of
  rw [uuidBytes_six]
  omega

/-- C7: a decoded POST /volumes request with an empty handle gets a
server-generated handle of UUIDv4 shape (lowercase hex with dashes,
version digit 4); a non-empty handle is passed to the repository
unchanged. -/
theorem createVolume_handle_resolution
    (req : VolumeRequest) (randBytes : Option (Fin 16 → Fin 256))
    (strategyFor : VolumeRequest → Except Unit Strategy)
    (repoCreate : String → Strategy → List (String × String) → Nat → Bool →
      Except RepoError Volume)
    (encodeOk : Bool) (strategy : Strategy)
    (hs : strategyFor req = Except.ok strategy) :
    (req.handle ≠ "" →
      (createVolume (some req) randBytes strategyFor repoCreate encodeOk).2 =
        some req.handle) ∧
    (∀ r, req.handle = "" → randBytes = some r →
      (createVolume (some req) randBytes strategyFor repoCreate encodeOk).2 =
        some (uuidV4String r) ∧
      isUUIDv4Format (uuidV4String r) = true) := by
  constructor
  · intro h
    cases hr : repoCreate req.handle strategy req.properties req.ttlInSeconds
        req.privileged <;>
      simp [createVolume, resolveHandle, h, hs, hr]
  · intro r h hrb
    subst hrb
    refine ⟨?_, isUUIDv4Format_uuidV4String r⟩
    cases hr : repoCreate (uuidV4String r) strategy req.properties
        req.ttlInSeconds req.privileged <;>
      simp [createVolume, resolveHandle, h, hs, hr]

/-- Witness for C7 at concrete inputs: a caller-supplied handle "mine"
is passed through; with an empty handle and the all-zero random source
the generated handle is the UUIDv4-shaped string of those bytes. -/
theorem createVolume_handle_resolution_witness :
    (createVolume (some ⟨"mine", "", [], 0, false⟩) none
      (fun _ => Except.ok Strategy.empty)
      (fun _ _ _ _ _ => Except.ok ⟨"mine", "/live/mine"⟩) true).2 =
      some "mine" ∧
    ((createVolume (some ⟨"", "", [], 0, false⟩) (some fun _ => 0)
      (fun _ => Except.ok Strategy.empty)
      (fun _ _ _ _ _ => Except.ok ⟨"g", "/live/g"⟩) true).2 =
        some (uuidV4String fun _ => 0) ∧
      isUUIDv4Format (uuidV4String fun _ => 0) = true) :=
  ⟨(createVolume_handle_resolution ⟨"mine", "", [], 0, false⟩ none
      (fun _ => Except.ok Strategy.empty)
      (fun _ _ _ _ _ => Except.ok ⟨"mine", "/live/mine"⟩)
      true Strategy.empty rfl).1 (by decide),
   (createVolume_handle_resolution ⟨"", "", [], 0, false⟩ (some fun _ => 0)
      (fun _ => Except.ok Strategy.empty)
      (fun _ _ _ _ _ => Except.ok ⟨"g", "/live/g"⟩)
      true Strategy.empty rfl).2 (fun _ => 0) rfl rfl⟩

end BaggageClaim
